import Mathlib

/-!
Verification of the real-time status and reconnecting event-channel core of
the datagenesis client, against a shallow embedding of the source files
`src/hooks/useSystemStatus.ts`, `src/lib/api.ts`, the `useWebSocket` hook,
`ModelProvider.tsx` / `ModelSelector.tsx`, and the two process-log ring
buffers (`DataGenerator.tsx`, `RealTimeStatus`).

JavaScript idioms are embedded as follows: optional chaining over possibly
absent fields becomes `Option`; the JS `x || d` fallback (which replaces the
falsy values `undefined`, `""` and `0`) becomes explicit `jsOr*` helpers;
a `try/catch` around an awaited call becomes an `Except`-valued parameter;
`Date` values are abstracted to whether they are set; React `useState` cells
become fields of explicit state records that step functions transform.
-/

namespace DataGenesis

/-- JS `str.trim()`: drop whitespace from both ends of the string. -/
def jsTrim (s : String) : String :=
  String.mk (((s.data.dropWhile Char.isWhitespace).reverse.dropWhile Char.isWhitespace).reverse)

/-- JS `x || d` on an optional string field: `undefined` and `""` are falsy. -/
def jsOrStr (o : Option String) (d : String) : String :=
  match o with
  | some s => if s = "" then d else s
  | none => d

/-- JS `x || d` on an optional boolean field: `undefined` and `false` are falsy. -/
def jsOrBool (o : Option Bool) (d : Bool) : Bool :=
  match o with
  | some b => if b then b else d
  | none => d

/-- JS `x || d` on an optional numeric field: `undefined` and `0` are falsy. -/
def jsOrNat (o : Option Nat) (d : Nat) : Nat :=
  match o with
  | some n => if n = 0 then d else n
  | none => d

/-! ## Data model of `useSystemStatus.ts` (lines 4-31) -/

/-- `gemini.status` field: one of `'online' | 'offline' | 'unknown'`. -/
inductive GeminiStatus
  | online
  | offline
  | unknown
deriving DecidableEq, Repr

/-- `overall.status` field: one of `'healthy' | 'degraded' | 'unhealthy'`. -/
inductive OverallStatus
  | healthy
  | degraded
  | unhealthy
deriving DecidableEq, Repr

/-- `backend` sub-record of `SystemStatusData`. `lastCheck : Date | null` is
abstracted to whether it is non-null. -/
structure BackendStatus where
  healthy : Bool
  lastCheckSet : Bool
  responseTime : Nat
  error : Option String
deriving DecidableEq, Repr

/-- `gemini` sub-record of `SystemStatusData`. -/
structure GeminiState where
  status : GeminiStatus
  model : String
  quotaPreserved : Bool
  apiKeyConfigured : Bool
deriving DecidableEq, Repr

/-- `agents` sub-record of `SystemStatusData`; `details` is the raw
agent-name → per-agent-status mapping when present. -/
structure AgentsState where
  active : Bool
  total : Nat
  operational : Nat
  details : Option (List (String × String))
deriving DecidableEq, Repr

/-- `websockets` sub-record of `SystemStatusData`. -/
structure WebsocketsState where
  connected : Bool
  status : String
deriving DecidableEq, Repr

/-- `overall` sub-record of `SystemStatusData`. -/
structure OverallState where
  status : OverallStatus
  message : String
deriving DecidableEq, Repr

/-- `SystemStatusData` (useSystemStatus.ts lines 4-31). -/
structure SystemStatusData where
  backend : BackendStatus
  gemini : GeminiState
  agents : AgentsState
  websockets : WebsocketsState
  overall : OverallState
deriving DecidableEq, Repr

/-! ## Shape of the health-check payload

`ApiService.healthCheck()` resolves `{ healthy, data? }` where `data` is the
opaque `/health` body; `useSystemStatus` reads it through optional chains
`data?.services?.gemini?.…`, `data?.services?.agents`,
`data?.services?.websockets`. -/

/-- `data.services.gemini` object of the health payload. -/
structure GeminiService where
  status : Option String
  model : Option String
  quota_preserved : Option Bool
  api_key_configured : Option Bool
deriving DecidableEq, Repr

/-- `data.services` object of the health payload. -/
structure HealthServices where
  gemini : Option GeminiService
  agents : Option String
  websockets : Option String
deriving DecidableEq, Repr

/-- `data` object of the health-check result. -/
structure HealthData where
  services : Option HealthServices
deriving DecidableEq, Repr

/-- Resolved value of `ApiService.healthCheck()`: `{ healthy: boolean; data?: any }`.
`healthCheck` never rejects (api.ts lines 11-22 convert transport failure to
`{ healthy: false }`). -/
structure HealthResponse where
  healthy : Bool
  data : Option HealthData
deriving DecidableEq, Repr

/-- Optional chain `healthResponse.data?.services?.gemini`. -/
def HealthResponse.geminiSvc (h : HealthResponse) : Option GeminiService :=
  h.data.bind (fun d => d.services.bind (fun s => s.gemini))

/-- Optional chain `healthResponse.data?.services?.agents`. -/
def HealthResponse.agentsSvc (h : HealthResponse) : Option String :=
  h.data.bind (fun d => d.services.bind (fun s => s.agents))

/-- Optional chain `healthResponse.data?.services?.websockets`. -/
def HealthResponse.websocketsSvc (h : HealthResponse) : Option String :=
  h.data.bind (fun d => d.services.bind (fun s => s.websockets))

/-- Response of `ApiService.getAgentsStatus()` (`GET /agents/status`):
`{ orchestrator_status, total_agents, agents: mapping name → { status } }`.
Each agent value is read only through its `status` field, so the mapping is
a list of `(name, status)` pairs. A `null`/falsy response behaves exactly
like `agents = none` under the guard `if (agentStatus && agentStatus.agents)`. -/
structure AgentsStatusResponse where
  orchestrator_status : Option String
  total_agents : Option Nat
  agents : Option (List (String × String))
deriving DecidableEq, Repr

/-! ## The poll cycle of `checkSystemStatus` (useSystemStatus.ts lines 44-143) -/

/-- Lines 55-78: the `newStatus` object built from the resolved health check.
Line 63 is embedded literally: the source ternary
`…gemini?.status === 'ready' ? 'online' : 'online'` yields `'online'` in both
branches. -/
def deriveNewStatus (h : HealthResponse) (responseTime : Nat) : SystemStatusData :=
  { backend :=
      { healthy := h.healthy
        lastCheckSet := true
        responseTime := responseTime
        error := if h.healthy then none else some "Connection failed" }
    gemini :=
      { status := if h.geminiSvc.bind (fun g => g.status) = some "ready"
                  then GeminiStatus.online else GeminiStatus.online
        model := jsOrStr (h.geminiSvc.bind (fun g => g.model)) "gemini-2.0-flash-exp"
        quotaPreserved := jsOrBool (h.geminiSvc.bind (fun g => g.quota_preserved)) false
        apiKeyConfigured := jsOrBool (h.geminiSvc.bind (fun g => g.api_key_configured)) false }
    agents :=
      { active := h.agentsSvc = some "active"
        total := 5
        operational := if h.agentsSvc = some "active" then 5 else 0
        details := none }
    websockets :=
      { connected := h.websocketsSvc = some "ready"
        status := jsOrStr h.websocketsSvc "unknown" }
    overall := { status := OverallStatus.healthy, message := "All systems operational" } }

/-- Lines 82-98: the inner `try` refining `newStatus.agents` from the secondary
`getAgentsStatus` probe; a thrown secondary probe (`Except.error`) only logs a
warning and keeps the primary-derived values. -/
def applySecondary (s : SystemStatusData) (r : Except Unit AgentsStatusResponse) :
    SystemStatusData :=
  match r with
  | Except.error _ => s
  | Except.ok resp =>
    match resp.agents with
    | none => s
    | some ags =>
      { s with agents :=
          { active := resp.orchestrator_status = some "active"
            total := jsOrNat resp.total_agents 5
            operational := (ags.filter (fun a => a.2 == "active")).length
            details := some ags } }

/-- Lines 101-119: the overall-verdict computation, replacing only `overall`. -/
def computeOverall (s : SystemStatusData) : SystemStatusData :=
  if s.backend.healthy ∧ s.gemini.status = GeminiStatus.online ∧ s.agents.active then
    { s with overall :=
        { status := OverallStatus.healthy
          message := "All systems operational - Full AI generation available" } }
  else if s.backend.healthy then
    { s with overall :=
        { status := OverallStatus.degraded
          message := if s.gemini.status = GeminiStatus.offline
                     then "Backend healthy, Gemini offline - Local generation available"
                     else "Partial functionality available" } }
  else
    { s with overall :=
        { status := OverallStatus.unhealthy
          message := "AI system unavailable - Please check connection" } }

/-- The successful (non-throwing) body of one poll cycle, lines 50-121: derive
the status from the health check, consult the secondary probe only when
`healthResponse.healthy` (line 81), then compute the overall verdict. -/
def checkCycleSuccess (h : HealthResponse) (responseTime : Nat)
    (sec : Except Unit AgentsStatusResponse) : SystemStatusData :=
  computeOverall (if h.healthy then applySecondary (deriveNewStatus h responseTime) sec
                  else deriveNewStatus h responseTime)

/-- Lines 126-137: the synthetic status published by the `catch` branch when
anything in the cycle throws; `msg` is the caught error's message. -/
def errorStatus (msg : String) : SystemStatusData :=
  { backend := { healthy := false, lastCheckSet := true, responseTime := 0, error := some msg }
    gemini := { status := GeminiStatus.offline, model := "gemini-2.0-flash-exp"
                quotaPreserved := false, apiKeyConfigured := false }
    agents := { active := false, total := 5, operational := 0, details := none }
    websockets := { connected := false, status := "error" }
    overall := { status := OverallStatus.unhealthy, message := "System health check failed" } }

/-- State owned by the `useSystemStatus` hook: the published status and the
`isChecking` concurrency flag. -/
structure AggState where
  status : SystemStatusData
  isChecking : Bool
deriving DecidableEq, Repr

/-- Outcome of the environment for one invocation, should the cycle run: either
the normal path (resolved health check, measured elapsed time, secondary-probe
outcome) or the exception path with the caught message. -/
inductive CycleOutcome
  | success (h : HealthResponse) (responseTime : Nat)
      (sec : Except Unit AgentsStatusResponse)
  | exception (msg : String)
deriving Repr

/-- One invocation of `checkSystemStatus` (lines 44-143). Returns the state
after the invocation together with whether the health probe was invoked.
Line 45 (`if (isChecking) return`) drops the request before any probe call and
before any state change; otherwise the cycle runs to completion and the
`finally` clears `isChecking`. -/
def checkSystemStatus (st : AggState) (oc : CycleOutcome) : AggState × Bool :=
  if st.isChecking then (st, false)
  else
    match oc with
    | CycleOutcome.success h rt sec =>
      ({ status := checkCycleSuccess h rt sec, isChecking := false }, true)
    | CycleOutcome.exception msg =>
      ({ status := errorStatus msg, isChecking := false }, true)

/-- `forceCheck` (lines 156-158) just invokes `checkSystemStatus`. -/
def forceCheck (st : AggState) (oc : CycleOutcome) : AggState × Bool :=
  checkSystemStatus st oc

/-! ## The reconnecting event channel (`useWebSocket`)

State tracked by the hook that the `onclose` handler touches:
`reconnectAttempts` (a ref starting at 0, reset to 0 by `onopen`), the
surfaced `error` string, and the pending reconnect timer.
`timerScheduled` holds the delay of the timer set by the most recent
`onclose`, or `none` when that `onclose` scheduled nothing. -/

structure WsState where
  reconnectAttempts : Nat
  errorMsg : Option String
  timerScheduled : Option Nat
  isConnected : Bool
deriving DecidableEq, Repr

/-- `maxReconnectAttempts = 3` (useWebSocket line 223). -/
def maxReconnectAttempts : Nat := 3

/-- Fresh channel state on `connect()` before any event, and also the state
right after a successful `onopen` (which resets the attempt counter and
clears the error). -/
def wsInitial : WsState :=
  { reconnectAttempts := 0, errorMsg := none, timerScheduled := none, isConnected := false }

/-- The `onclose` handler (useWebSocket lines 249-265): clear the connected
flag; if the attempt counter is below the maximum, increment it first, compute
`delay = min(1000 * 2^attempts, 10000)` and schedule a reconnect timer with
that delay; otherwise surface the terminal error and schedule nothing. -/
def oncloseStep (s : WsState) : WsState :=
  if s.reconnectAttempts < maxReconnectAttempts then
    let attempts := s.reconnectAttempts + 1
    { s with
        isConnected := false
        reconnectAttempts := attempts
        timerScheduled := some (min (1000 * 2 ^ attempts) 10000) }
  else
    { s with
        isConnected := false
        timerScheduled := none
        errorMsg := some "Failed to establish WebSocket connection after multiple attempts" }

/-- State after `n` consecutive `onclose` events with no successful reopen
(no `onopen`, hence no counter reset) in between. -/
def afterCloses : Nat → WsState → WsState
  | 0, s => s
  | n + 1, s => oncloseStep (afterCloses n s)

/-- The delays scheduled by closes `1..n` of a run of consecutive failures. -/
def closeDelays (n : Nat) (s : WsState) : List (Option Nat) :=
  (List.range n).map (fun i => (afterCloses (i + 1) s).timerScheduled)

/-! ## Process-log ring buffers

`DataGenerator.tsx` lines 134-138: `[...prev, logEntry].slice(-50)`;
the compact monitor (`RealTimeStatus`) lines 105-108:
`[...prev, data].slice(-20)`. -/

/-- JS `arr.slice(-n)` for `n ≥ 1`: the last `min(n, arr.length)` elements in
order. -/
def sliceLast (n : Nat) (l : List α) : List α :=
  l.drop (l.length - n)

/-- One `setProcessLogs` update: append the new entry, keep the last `cap`. -/
def pushLog (cap : Nat) (buf : List α) (e : α) : List α :=
  sliceLast cap (buf ++ [e])

/-- `ProcessLogEntry` as built in `DataGenerator.tsx` (id, timestamp, level,
message, step, progress, agent, optional metrics). `timestamp` is abstracted
to a string; `progress` ranges over −1..100 so it is an `Int`. -/
structure LogMetrics where
  qualityScore : Option Nat
  privacyScore : Option Nat
  biasScore : Option Nat
deriving DecidableEq, Repr

/-- Log level: `'info' | 'success' | 'warning' | 'error'`. -/
inductive LogLevel
  | info
  | success
  | warning
  | error
deriving DecidableEq, Repr

/-- A process-log entry. -/
structure ProcessLogEntry where
  id : String
  timestamp : String
  level : LogLevel
  message : String
  step : String
  progress : Int
  agent : String
  metrics : Option LogMetrics
deriving DecidableEq, Repr

/-! ## ModelConfigStore (`ModelProvider.tsx` and `ModelSelector.tsx`)

`setModel` (ModelProvider.tsx lines 68-71) writes
`JSON.stringify(config)` under the single key `datagenesis-model-config`;
the load effect (lines 55-66) reads that key and `JSON.parse`s it. Durable
storage is modelled as the optional JSON value held under that key, with
`JSON.stringify`/`JSON.parse` round-tripping through the JSON value of the
stored object. -/

/-- The fragment of JSON needed by the config object: strings and objects. -/
inductive Json
  | str (s : String)
  | obj (fields : List (String × Json))

/-- Field lookup on a parsed JSON object. -/
def Json.get (j : Json) (key : String) : Option Json :=
  match j with
  | Json.str _ => none
  | Json.obj fields => fields.lookup key

/-- String-valued field lookup. -/
def Json.getStr (j : Json) (key : String) : Option String :=
  match j.get key with
  | some (Json.str s) => some s
  | _ => none

/-- `ModelConfig.provider`: enum `'gemini' | 'openai' | 'anthropic' | 'ollama'`
(ModelProvider.tsx lines 3-8). -/
inductive Provider
  | gemini
  | openai
  | anthropic
  | ollama
deriving DecidableEq, Repr

/-- The provider's string representation in the serialized config. -/
def Provider.name : Provider → String
  | Provider.gemini => "gemini"
  | Provider.openai => "openai"
  | Provider.anthropic => "anthropic"
  | Provider.ollama => "ollama"

/-- Read a provider string back into the enum. -/
def parseProvider (s : String) : Option Provider :=
  if s = "gemini" then some Provider.gemini
  else if s = "openai" then some Provider.openai
  else if s = "anthropic" then some Provider.anthropic
  else if s = "ollama" then some Provider.ollama
  else none

/-- `ModelConfig` (ModelProvider.tsx lines 3-8): provider, model, apiKey and
an optional endpoint (present for Ollama custom endpoints). -/
structure ModelConfig where
  provider : Provider
  model : String
  apiKey : String
  endpoint : Option String
deriving DecidableEq, Repr

/-- `JSON.stringify(config)`: the JSON object of the config; an absent
`endpoint` is omitted from the serialization, as `JSON.stringify` drops
`undefined` properties. -/
def encodeConfig (c : ModelConfig) : Json :=
  Json.obj ([("provider", Json.str c.provider.name),
             ("model", Json.str c.model),
             ("apiKey", Json.str c.apiKey)] ++
            (match c.endpoint with
             | some e => [("endpoint", Json.str e)]
             | none => []))

/-- Interpretation of the parsed JSON as a typed `ModelConfig`. The load
effect (ModelProvider.tsx lines 55-66) assigns the `JSON.parse` result
directly; reading the dynamically-typed object back as a `ModelConfig` value
reads its three string fields and the optional `endpoint`. -/
def decodeConfig (j : Json) : Option ModelConfig :=
  match (j.getStr "provider").bind parseProvider, j.getStr "model", j.getStr "apiKey" with
  | some p, some m, some k =>
    some { provider := p, model := m, apiKey := k, endpoint := j.getStr "endpoint" }
  | _, _, _ => none

/-- Durable local storage: the single key `datagenesis-model-config`, holding
the parsed form of the serialized config when present. -/
abbrev StorageSlot := Option Json

/-- `setModel(config)` (ModelProvider.tsx lines 68-71) as it acts on durable
storage: overwrite the slot with the serialized config. -/
def setModelStorage (c : ModelConfig) (_st : StorageSlot) : StorageSlot :=
  some (encodeConfig c)

/-- The load effect (ModelProvider.tsx lines 55-66) as it produces the
in-memory configuration from durable storage: absent or unreadable data
yields no configuration. -/
def loadModelConfig (st : StorageSlot) : Option ModelConfig :=
  match st with
  | none => none
  | some j => decodeConfig j

/-! ## `ModelSelector.handleSave` (part of the configuration-set operation)

`handleSave` (ModelSelector.tsx lines 55-136): reject synchronously when a
non-Ollama provider has a blank API key; otherwise configure the backend
(`configureAI`, which may throw), then `setModel(config)` — writing the
config built from the raw form fields, the API key trimmed and the endpoint
spread in only for Ollama — and finally run a non-fatal connection test. -/

/-- The selector's form fields feeding `handleSave`. -/
structure SelectorState where
  selectedProvider : String
  selectedModel : String
  apiKey : String
  endpoint : String
deriving DecidableEq, Repr

/-- Observable outcome of one `handleSave` run. -/
inductive SaveOutcome
  | validationError (msg : String)
  | configureFailed
  | savedTestOk
  | savedTestFailed
deriving DecidableEq, Repr

/-- The config object built at ModelSelector.tsx lines 73-78, serialized as
`setModel` stores it: provider and model as entered, `apiKey.trim()`, and the
`endpoint` key spread in only when the provider is `'ollama'`. -/
def encodeSelectorConfig (s : SelectorState) : Json :=
  Json.obj ([("provider", Json.str s.selectedProvider),
             ("model", Json.str s.selectedModel),
             ("apiKey", Json.str (jsTrim s.apiKey))] ++
            (if s.selectedProvider = "ollama"
             then [("endpoint", Json.str s.endpoint)] else []))

/-- `handleSave` as it acts on durable storage. `configureOk` is whether
`ApiService.configureAI` resolves; `testOk` whether `testAIConnection`
resolves. The validation guard (lines 56-64) returns before any network call
or storage write. -/
def handleSave (s : SelectorState) (configureOk testOk : Bool) (st : StorageSlot) :
    SaveOutcome × StorageSlot :=
  if s.selectedProvider ≠ "ollama" ∧ jsTrim s.apiKey = "" then
    (SaveOutcome.validationError "Please enter an API key", st)
  else if configureOk then
    let st' := some (encodeSelectorConfig s)
    (if testOk then SaveOutcome.savedTestOk else SaveOutcome.savedTestFailed, st')
  else
    (SaveOutcome.configureFailed, st)

/-! ## Helper lemmas shared by the claim theorems -/

theorem applySecondary_backend (s : SystemStatusData) (r : Except Unit AgentsStatusResponse) :
    (applySecondary s r).backend = s.backend := by
  cases r with
  | error e => rfl
  | ok resp => cases h : resp.agents <;> simp [applySecondary, h]

theorem applySecondary_gemini (s : SystemStatusData) (r : Except Unit AgentsStatusResponse) :
    (applySecondary s r).gemini = s.gemini := by
  cases r with
  | error e => rfl
  | ok resp => cases h : resp.agents <;> simp [applySecondary, h]

theorem computeOverall_backend (s : SystemStatusData) :
    (computeOverall s).backend = s.backend := by
  unfold computeOverall
  split
  · rfl
  · split <;> rfl

theorem computeOverall_gemini (s : SystemStatusData) :
    (computeOverall s).gemini = s.gemini := by
  unfold computeOverall
  split
  · rfl
  · split <;> rfl

theorem computeOverall_agents (s : SystemStatusData) :
    (computeOverall s).agents = s.agents := by
  unfold computeOverall
  split
  · rfl
  · split <;> rfl

theorem deriveNewStatus_backend_healthy (h : HealthResponse) (rt : Nat) :
    (deriveNewStatus h rt).backend.healthy = h.healthy := rfl

/-- Line 63's ternary maps every payload to `'online'`. -/
theorem deriveNewStatus_gemini_status (h : HealthResponse) (rt : Nat) :
    (deriveNewStatus h rt).gemini.status = GeminiStatus.online := by
  unfold deriveNewStatus
  simp

theorem checkCycleSuccess_backend_healthy (h : HealthResponse) (rt : Nat)
    (sec : Except Unit AgentsStatusResponse) :
    (checkCycleSuccess h rt sec).backend.healthy = h.healthy := by
  unfold checkCycleSuccess
  rw [computeOverall_backend]
  split
  · rw [applySecondary_backend]; rfl
  · rfl

/-- Lines 114-118: a status whose backend is unhealthy gets the `'unhealthy'`
verdict. -/
theorem computeOverall_status_of_not_healthy (s : SystemStatusData)
    (hs : s.backend.healthy = false) :
    (computeOverall s).overall.status = OverallStatus.unhealthy := by
  unfold computeOverall
  simp [hs]

/-! ## Claim theorems -/

/-- C1: in every poll cycle, on the normal path as well as on the exception
path, if the published status has `backend.healthy = false` then its overall
verdict is `'unhealthy'`, whatever the health payload, elapsed time and
secondary-probe outcome were. -/
theorem c1_backend_unhealthy_forces_unhealthy_verdict
    (h : HealthResponse) (rt : Nat) (sec : Except Unit AgentsStatusResponse) (msg : String)
    (hb : (checkCycleSuccess h rt sec).backend.healthy = false) :
    (checkCycleSuccess h rt sec).overall.status = OverallStatus.unhealthy ∧
    (errorStatus msg).overall.status = OverallStatus.unhealthy := by
  refine ⟨?_, rfl⟩
  rw [checkCycleSuccess_backend_healthy] at hb
  unfold checkCycleSuccess
  apply computeOverall_status_of_not_healthy
  simp [hb, applySecondary_backend, deriveNewStatus]

/-- Witness for C1 at a concrete failed health check. -/
theorem c1_backend_unhealthy_forces_unhealthy_verdict_witness :
    (checkCycleSuccess ⟨false, none⟩ 0 (Except.error ())).overall.status
      = OverallStatus.unhealthy ∧
    (errorStatus "Unknown error").overall.status = OverallStatus.unhealthy :=
  c1_backend_unhealthy_forces_unhealthy_verdict ⟨false, none⟩ 0 (Except.error ())
    "Unknown error" rfl

/-- C4: an invocation of `checkSystemStatus` (hence of `forceCheck`, which
just calls it) that arrives while `isChecking` is set returns with the probe
not invoked and the whole state — stored status and flag — unchanged,
whatever environment outcome would have awaited the cycle. -/
theorem c4_concurrency_guard_drops_overlapping_invocation
    (st : AggState) (oc : CycleOutcome) (hc : st.isChecking = true) :
    checkSystemStatus st oc = (st, false) ∧ forceCheck st oc = (st, false) := by
  unfold forceCheck checkSystemStatus
  simp [hc]

/-- Witness for C4 at a concrete in-flight state. -/
theorem c4_concurrency_guard_drops_overlapping_invocation_witness :
    checkSystemStatus ⟨errorStatus "boot", true⟩ (CycleOutcome.exception "late")
      = (⟨errorStatus "boot", true⟩, false) ∧
    forceCheck ⟨errorStatus "boot", true⟩ (CycleOutcome.exception "late")
      = (⟨errorStatus "boot", true⟩, false) :=
  c4_concurrency_guard_drops_overlapping_invocation
    ⟨errorStatus "boot", true⟩ (CycleOutcome.exception "late") rfl

/-- C8: `setModel(config)` followed by a reload that re-reads and re-parses
the durable copy under `datagenesis-model-config` recovers exactly the
original configuration, for every provider, model, apiKey and optional
endpoint, and for every prior storage content. -/
theorem c8_model_config_roundtrip (c : ModelConfig) (st : StorageSlot) :
    loadModelConfig (setModelStorage c st) = some c := by
  rcases c with ⟨p, m, k, e⟩
  cases p <;> cases e <;> rfl

/-- C9: `handleSave` on a non-ollama provider whose API key is blank after
trimming returns the synchronous validation error and leaves durable storage
exactly as it was; neither the backend configure call nor `setModel` runs. -/
theorem c9_empty_api_key_rejected_storage_untouched
    (s : SelectorState) (cOk tOk : Bool) (st : StorageSlot)
    (hp : s.selectedProvider ≠ "ollama") (hk : jsTrim s.apiKey = "") :
    handleSave s cOk tOk st = (SaveOutcome.validationError "Please enter an API key", st) := by
  unfold handleSave
  rw [if_pos ⟨hp, hk⟩]

/-- Witness for C9: `{provider: 'openai', model: 'gpt-4', apiKey: ''}` against
a non-empty prior storage slot. -/
theorem c9_empty_api_key_rejected_storage_untouched_witness :
    handleSave ⟨"openai", "gpt-4", "", "http://localhost:11434"⟩ true true
        (some (Json.str "prior"))
      = (SaveOutcome.validationError "Please enter an API key", some (Json.str "prior")) :=
  c9_empty_api_key_rejected_storage_untouched
    ⟨"openai", "gpt-4", "", "http://localhost:11434"⟩ true true
    (some (Json.str "prior")) (by decide) rfl

/-- C5: starting from a state whose attempt counter is 0 (fresh connect or
after a successful open), three consecutive connection failures schedule
reconnect delays of exactly 2000, 4000 and 8000 ms — the counter incremented
before each delay is computed — and a 4th failure schedules no further
automatic attempt, the counter having reached the maximum of 3. -/
theorem c5_reconnect_backoff_sequence (s : WsState) (h0 : s.reconnectAttempts = 0) :
    closeDelays 3 s = [some 2000, some 4000, some 8000] ∧
    (afterCloses 4 s).timerScheduled = none ∧
    (afterCloses 4 s).reconnectAttempts = maxReconnectAttempts := by
  refine ⟨?_, ?_, ?_⟩
  · simp [closeDelays, List.range_succ, afterCloses, oncloseStep, maxReconnectAttempts, h0]
  · simp [afterCloses, oncloseStep, maxReconnectAttempts, h0]
  · simp [afterCloses, oncloseStep, maxReconnectAttempts, h0]

/-- Witness for C5 at the fresh channel state. -/
theorem c5_reconnect_backoff_sequence_witness :
    closeDelays 3 wsInitial = [some 2000, some 4000, some 8000] ∧
    (afterCloses 4 wsInitial).timerScheduled = none ∧
    (afterCloses 4 wsInitial).reconnectAttempts = maxReconnectAttempts :=
  c5_reconnect_backoff_sequence wsInitial rfl

/-- C6 as stated is false: immediately after the 3rd consecutive `onclose`
from a fresh channel, no terminal error has been surfaced and a further
reconnect timer (8000 ms) *is* scheduled. -/
theorem c6_counterexample_third_close_not_terminal :
    (afterCloses 3 wsInitial).errorMsg = none ∧
    (afterCloses 3 wsInitial).timerScheduled = some 8000 := by
  refine ⟨rfl, ?_⟩
  decide

/-- C6 amended: after the 3rd consecutive `onclose` the channel has scheduled
a third reconnect attempt (8000 ms timer) and surfaced no error; the terminal
failed state — error surfaced, no timer scheduled — is reached only at the
4th consecutive `onclose`. -/
theorem c6_amended_terminal_after_fourth_close (s : WsState)
    (h0 : s.reconnectAttempts = 0) (he : s.errorMsg = none) :
    (afterCloses 3 s).errorMsg = none ∧
    (afterCloses 3 s).timerScheduled = some 8000 ∧
    (afterCloses 4 s).errorMsg
      = some "Failed to establish WebSocket connection after multiple attempts" ∧
    (afterCloses 4 s).timerScheduled = none := by
  refine ⟨?_, ?_, ?_, ?_⟩
  · simp [afterCloses, oncloseStep, maxReconnectAttempts, h0, he]
  · simp [afterCloses, oncloseStep, maxReconnectAttempts, h0]
  · simp [afterCloses, oncloseStep, maxReconnectAttempts, h0]
  · simp [afterCloses, oncloseStep, maxReconnectAttempts, h0]

/-- Witness for the amended C6 at the fresh channel state. -/
theorem c6_amended_terminal_after_fourth_close_witness :
    (afterCloses 3 wsInitial).errorMsg = none ∧
    (afterCloses 3 wsInitial).timerScheduled = some 8000 ∧
    (afterCloses 4 wsInitial).errorMsg
      = some "Failed to establish WebSocket connection after multiple attempts" ∧
    (afterCloses 4 wsInitial).timerScheduled = none :=
  c6_amended_terminal_after_fourth_close wsInitial rfl rfl

/-- C2 as stated is false: when the health check resolves with
`healthy: false` but a payload whose `services.agents` is `'active'`, the
published status has `gemini.status = 'online'` (line 63's ternary yields
`'online'` for every payload) and `agents.active = true` (derived from the
payload, not forced false). -/
theorem c2_counterexample_gemini_not_forced_offline :
    (checkCycleSuccess ⟨false, some ⟨some ⟨none, some "active", none⟩⟩⟩ 7
        (Except.error ())).gemini.status = GeminiStatus.online ∧
    (checkCycleSuccess ⟨false, some ⟨some ⟨none, some "active", none⟩⟩⟩ 7
        (Except.error ())).agents.active = true := by
  exact ⟨rfl, rfl⟩

/-- C2 amended: when the health check resolves with `healthy: false`, the
cycle publishes `backend.healthy = false` with `backend.error` populated
(`'Connection failed'`), skips the secondary probe (the result does not
depend on its outcome), and the overall verdict is `'unhealthy'` — but the
AI-engine state remains `'online'` rather than being forced `'offline'`, and
`agents.active` mirrors the payload's `services.agents === 'active'` rather
than being forced false. -/
theorem c2_amended_resolved_unhealthy_cycle
    (h : HealthResponse) (rt : Nat) (sec sec' : Except Unit AgentsStatusResponse)
    (hh : h.healthy = false) :
    (checkCycleSuccess h rt sec).backend.healthy = false ∧
    (checkCycleSuccess h rt sec).backend.error = some "Connection failed" ∧
    (checkCycleSuccess h rt sec).overall.status = OverallStatus.unhealthy ∧
    (checkCycleSuccess h rt sec).gemini.status = GeminiStatus.online ∧
    ((checkCycleSuccess h rt sec).agents.active = true ↔ h.agentsSvc = some "active") ∧
    checkCycleSuccess h rt sec = checkCycleSuccess h rt sec' := by
  have key : ∀ s' : Except Unit AgentsStatusResponse,
      checkCycleSuccess h rt s' = computeOverall (deriveNewStatus h rt) := by
    intro s'
    unfold checkCycleSuccess
    simp [hh]
  refine ⟨?_, ?_, ?_, ?_, ?_, ?_⟩
  · rw [key, computeOverall_backend, deriveNewStatus_backend_healthy, hh]
  · rw [key, computeOverall_backend]
    simp [deriveNewStatus, hh]
  · rw [key]
    exact computeOverall_status_of_not_healthy _
      (by rw [deriveNewStatus_backend_healthy, hh])
  · rw [key, computeOverall_gemini, deriveNewStatus_gemini_status]
  · rw [key, computeOverall_agents]
    simp [deriveNewStatus]
  · rw [key, key]

/-- Witness for the amended C2 at a concrete failed health check carrying an
`'active'` agents literal in its payload. -/
theorem c2_amended_resolved_unhealthy_cycle_witness :
    (checkCycleSuccess ⟨false, some ⟨some ⟨none, some "active", none⟩⟩⟩ 9
        (Except.error ())).backend.healthy = false ∧
    (checkCycleSuccess ⟨false, some ⟨some ⟨none, some "active", none⟩⟩⟩ 9
        (Except.error ())).backend.error = some "Connection failed" ∧
    (checkCycleSuccess ⟨false, some ⟨some ⟨none, some "active", none⟩⟩⟩ 9
        (Except.error ())).overall.status = OverallStatus.unhealthy ∧
    (checkCycleSuccess ⟨false, some ⟨some ⟨none, some "active", none⟩⟩⟩ 9
        (Except.error ())).gemini.status = GeminiStatus.online ∧
    ((checkCycleSuccess ⟨false, some ⟨some ⟨none, some "active", none⟩⟩⟩ 9
        (Except.error ())).agents.active = true ↔
      HealthResponse.agentsSvc ⟨false, some ⟨some ⟨none, some "active", none⟩⟩⟩
        = some "active") ∧
    checkCycleSuccess ⟨false, some ⟨some ⟨none, some "active", none⟩⟩⟩ 9
        (Except.error ())
      = checkCycleSuccess ⟨false, some ⟨some ⟨none, some "active", none⟩⟩⟩ 9
        (Except.ok ⟨some "active", some 9, some [("x", "active")]⟩) :=
  c2_amended_resolved_unhealthy_cycle ⟨false, some ⟨some ⟨none, some "active", none⟩⟩⟩ 9
    (Except.error ()) (Except.ok ⟨some "active", some 9, some [("x", "active")]⟩) rfl

/-- Lines 101-113 for a healthy backend whose AI engine reads online: the
verdict collapses to a test of `agents.active`. -/
theorem computeOverall_status_of_healthy_online (s : SystemStatusData)
    (h1 : s.backend.healthy = true) (h2 : s.gemini.status = GeminiStatus.online) :
    (computeOverall s).overall.status
      = if s.agents.active then OverallStatus.healthy else OverallStatus.degraded := by
  unfold computeOverall
  by_cases hact : s.agents.active = true
  · simp [h1, h2, hact]
  · simp [h1, h2, hact]

/-- The primary-derived agents fields satisfy `operational ≤ total`. -/
theorem deriveNewStatus_agents_bound (h : HealthResponse) (rt : Nat) :
    (deriveNewStatus h rt).agents.operational ≤ (deriveNewStatus h rt).agents.total := by
  unfold deriveNewStatus
  dsimp only
  split <;> norm_num

/-- C3 as stated is false: when the primary health probe succeeds with an
`'active'` agents literal and the secondary agents-status probe throws, the
published verdict is `'healthy'`, not `'degraded'`. -/
theorem c3_counterexample_verdict_healthy_not_degraded :
    (checkCycleSuccess ⟨true, some ⟨some ⟨none, some "active", none⟩⟩⟩ 7
        (Except.error ())).overall.status = OverallStatus.healthy ∧
    OverallStatus.healthy ≠ OverallStatus.degraded := by
  exact ⟨rfl, by decide⟩

/-- C3 amended: when the primary health probe succeeds but the secondary
agents-status probe throws, the cycle still publishes a status keeping the
agents values derived from the primary probe, and the verdict is never
`'unhealthy'` — it is `'healthy'` when the primary-derived `agents.active`
holds and `'degraded'` otherwise. -/
theorem c3_amended_secondary_failure_tolerated
    (h : HealthResponse) (rt : Nat) (hh : h.healthy = true) :
    (checkCycleSuccess h rt (Except.error ())).agents = (deriveNewStatus h rt).agents ∧
    (checkCycleSuccess h rt (Except.error ())).overall.status ≠ OverallStatus.unhealthy ∧
    (checkCycleSuccess h rt (Except.error ())).overall.status
      = if (deriveNewStatus h rt).agents.active then OverallStatus.healthy
        else OverallStatus.degraded := by
  have key : checkCycleSuccess h rt (Except.error ())
      = computeOverall (deriveNewStatus h rt) := by
    unfold checkCycleSuccess
    simp [hh, applySecondary]
  have hov := computeOverall_status_of_healthy_online (deriveNewStatus h rt)
    (by rw [deriveNewStatus_backend_healthy, hh]) (deriveNewStatus_gemini_status h rt)
  refine ⟨?_, ?_, ?_⟩
  · rw [key, computeOverall_agents]
  · rw [key, hov]
    by_cases hact : (deriveNewStatus h rt).agents.active = true <;> simp [hact]
  · rw [key, hov]

/-- Witness for the amended C3 at a concrete healthy probe without payload. -/
theorem c3_amended_secondary_failure_tolerated_witness :
    (checkCycleSuccess ⟨true, none⟩ 3 (Except.error ())).agents
      = (deriveNewStatus (⟨true, none⟩ : HealthResponse) 3).agents ∧
    (checkCycleSuccess ⟨true, none⟩ 3 (Except.error ())).overall.status
      ≠ OverallStatus.unhealthy ∧
    (checkCycleSuccess ⟨true, none⟩ 3 (Except.error ())).overall.status
      = if (deriveNewStatus (⟨true, none⟩ : HealthResponse) 3).agents.active
        then OverallStatus.healthy else OverallStatus.degraded :=
  c3_amended_secondary_failure_tolerated ⟨true, none⟩ 3 rfl

/-- C10 as stated is false: a successful secondary `/agents/status` response
reporting six active agents but no `total_agents` yields
`agents.operational = 6 > 5 = agents.total` in the published status. -/
theorem c10_counterexample_operational_exceeds_total :
    (checkCycleSuccess ⟨true, none⟩ 7 (Except.ok ⟨some "active", none,
        some [("a", "active"), ("b", "active"), ("c", "active"),
              ("d", "active"), ("e", "active"), ("f", "active")]⟩)).agents.operational = 6 ∧
    (checkCycleSuccess ⟨true, none⟩ 7 (Except.ok ⟨some "active", none,
        some [("a", "active"), ("b", "active"), ("c", "active"),
              ("d", "active"), ("e", "active"), ("f", "active")]⟩)).agents.total = 5 ∧
    ¬ (6 ≤ 5) := by
  exact ⟨rfl, rfl, by decide⟩

/-- C10 amended: `agents.operational ≤ agents.total` holds in every published
status on the primary-derived path (any payload) and on the exception path;
on the secondary path it holds exactly under the bound that the response's
count of `'active'` agents does not exceed its effective total
(`total_agents` when truthy, else 5) — which an arbitrary secondary response
need not satisfy. -/
theorem c10_amended_operational_bounded
    (h : HealthResponse) (rt : Nat) (sec : Except Unit AgentsStatusResponse) (msg : String)
    (hsec : ∀ resp ags, sec = Except.ok resp → resp.agents = some ags →
      (ags.filter (fun a => a.2 == "active")).length ≤ jsOrNat resp.total_agents 5) :
    (checkCycleSuccess h rt sec).agents.operational
      ≤ (checkCycleSuccess h rt sec).agents.total ∧
    (errorStatus msg).agents.operational ≤ (errorStatus msg).agents.total := by
  refine ⟨?_, by norm_num [errorStatus]⟩
  unfold checkCycleSuccess
  rw [computeOverall_agents]
  by_cases hh : h.healthy = true
  · rw [if_pos hh]
    cases sec with
    | error e => exact deriveNewStatus_agents_bound h rt
    | ok resp =>
      cases hres : resp.agents with
      | none =>
        simp only [applySecondary, hres]
        exact deriveNewStatus_agents_bound h rt
      | some ags =>
        simp only [applySecondary, hres]
        exact hsec resp ags rfl hres
  · rw [if_neg hh]
    exact deriveNewStatus_agents_bound h rt

/-- Witness for the amended C10: a throwing secondary probe makes the bound
hypothesis vacuous. -/
theorem c10_amended_operational_bounded_witness :
    (checkCycleSuccess ⟨true, none⟩ 7 (Except.error ())).agents.operational
      ≤ (checkCycleSuccess ⟨true, none⟩ 7 (Except.error ())).agents.total ∧
    (errorStatus "down").agents.operational ≤ (errorStatus "down").agents.total :=
  c10_amended_operational_bounded ⟨true, none⟩ 7 (Except.error ()) "down"
    (fun _ _ h1 _ => nomatch h1)

theorem sliceLast_eq_reverse_take (n : Nat) (l : List α) :
    sliceLast n l = (l.reverse.take n).reverse := by
  rw [show sliceLast n l = l.rtake n from rfl, List.rtake_eq_reverse_take_reverse]

theorem take_append_take (n : Nat) (a b : List α) :
    (a ++ b.take n).take n = (a ++ b).take n := by
  rw [List.take_append_eq_append_take, List.take_append_eq_append_take, List.take_take,
      min_eq_left (Nat.sub_le n a.length)]

/-- Re-slicing after an append behaves as slicing the full history. -/
theorem sliceLast_append_sliceLast (n : Nat) (l1 l2 : List α) :
    sliceLast n (sliceLast n l1 ++ l2) = sliceLast n (l1 ++ l2) := by
  simp only [sliceLast_eq_reverse_take, List.reverse_append, List.reverse_reverse]
  rw [take_append_take]

theorem pushLog_length_le (cap : Nat) (buf : List α) (e : α) :
    (pushLog cap buf e).length ≤ cap := by
  simp only [pushLog, sliceLast, List.length_drop]
  omega

/-- Folding insertions through the ring buffer equals slicing the history. -/
theorem foldl_pushLog (cap : Nat) (es : List α) (buf : List α) (hbuf : buf.length ≤ cap) :
    List.foldl (pushLog cap) buf es = sliceLast cap (buf ++ es) := by
  induction es generalizing buf with
  | nil => simp [sliceLast, Nat.sub_eq_zero_of_le hbuf]
  | cons e es ih =>
    rw [List.foldl_cons, ih (pushLog cap buf e) (pushLog_length_le cap buf e)]
    rw [show pushLog cap buf e = sliceLast cap (buf ++ [e]) from rfl]
    rw [sliceLast_append_sliceLast]
    simp

/-- C7: the process-log ring buffer — capacity 50 for the full logger,
capacity 20 for the compact monitor — never exceeds its capacity after an
insertion, and inserting capacity+5 entries into an empty buffer leaves
exactly the last `capacity` entries in their original arrival order (the
first 5 evicted). -/
theorem c7_ring_buffer_capacity_and_fifo (cap : Nat) (_hcap : cap = 50 ∨ cap = 20)
    (es : List ProcessLogEntry) (hlen : es.length = cap + 5)
    (buf : List ProcessLogEntry) (e : ProcessLogEntry) :
    (pushLog cap buf e).length ≤ cap ∧
    List.foldl (pushLog cap) [] es = sliceLast cap es ∧
    sliceLast cap es = es.drop 5 := by
  refine ⟨pushLog_length_le cap buf e, ?_, ?_⟩
  · have hfold := foldl_pushLog cap es [] (by simp)
    simpa using hfold
  · unfold sliceLast
    rw [hlen]
    simp

/-- Witness for C7 at capacity 20 with 25 identical entries. -/
theorem c7_ring_buffer_capacity_and_fifo_witness :
    (pushLog 20 []
        (⟨"1", "t0", LogLevel.info, "m", "s", 0, "system", none⟩ : ProcessLogEntry)).length
      ≤ 20 ∧
    List.foldl (pushLog 20) []
        (List.replicate 25 (⟨"1", "t0", LogLevel.info, "m", "s", 0, "system", none⟩ :
          ProcessLogEntry))
      = sliceLast 20 (List.replicate 25
          (⟨"1", "t0", LogLevel.info, "m", "s", 0, "system", none⟩ : ProcessLogEntry)) ∧
    sliceLast 20 (List.replicate 25
        (⟨"1", "t0", LogLevel.info, "m", "s", 0, "system", none⟩ : ProcessLogEntry))
      = (List.replicate 25
          (⟨"1", "t0", LogLevel.info, "m", "s", 0, "system", none⟩ : ProcessLogEntry)).drop 5 :=
  c7_ring_buffer_capacity_and_fifo 20 (Or.inr rfl)
    (List.replicate 25 ⟨"1", "t0", LogLevel.info, "m", "s", 0, "system", none⟩)
    (by simp) [] ⟨"1", "t0", LogLevel.info, "m", "s", 0, "system", none⟩

end DataGenesis
